import Mathlib

/-
Verification of the form-scoping core of `streamlit` (files
`src/lib/streamlit/elements/form.py` and its unit tests).

The embedding below translates the Python source into Lean:
pure helpers become Lean functions, the ambient report context
(`get_report_ctx`) becomes an explicit `Option ReportCtx` argument,
and the state mutated by `FormMixin.beta_form` (the per-run set of
form ids and the container tree) is threaded explicitly through a
`World` record.  Exceptions (`StreamlitAPIException`) become
`Except String` values carrying the exception message.
-/

namespace StreamlitForm

/-- Root container kinds, from `streamlit.proto.RootContainer_pb2`.
The source only distinguishes `SIDEBAR` from everything else. -/
inductive RootContainer where
  | MAIN
  | SIDEBAR
deriving DecidableEq, Repr

/-- Form data stored on a DeltaGenerator (`FormData` in `form.py`):
the form's unique ID, the label for the submit button that is
automatically created for the form, and the optional key for the
submit button. -/
structure FormData where
  form_id : String
  submit_button_label : String
  submit_button_key : Option String
deriving DecidableEq, Repr

/-- The slice of `streamlit.delta_generator.DeltaGenerator` that
`form.py` reads: its root container and its directly-attached
form data (`_root_container` and `_form_data`). -/
structure DeltaGenerator where
  _root_container : RootContainer
  _form_data : Option FormData
deriving DecidableEq, Repr

/-- Modelled from the spec: the Run Context (`get_report_ctx()` in the
source returns it; its class lives outside `src/`).  Per the spec it
holds `container_stack` — an ordered sequence of containers, appended
on block-entry and popped on block-exit (LIFO) — and `form_ids_seen`,
the per-run set of registered form ids (`dg_stack` and
`form_ids_this_run` in the source). -/
structure ReportCtx where
  dg_stack : List DeltaGenerator
  form_ids_this_run : List String
deriving DecidableEq, Repr

/-- Modelled from the spec: insertion into the run context's
`form_ids_seen` set reports whether the id was newly added
(`ctx.form_ids_this_run.add(form_id)` returns that flag in the
source; the set class lives outside `src/`). -/
def formIdsAdd (s : List String) (x : String) : List String × Bool :=
  if x ∈ s then (s, false) else (s ++ [x], true)

/-- Modelled from the spec: block-entry appends the entered container
onto the run context's `container_stack` (the `with`-scope push; the
code maintaining `dg_stack` lives outside `src/`). -/
def dgStackPush (c : ReportCtx) (dg : DeltaGenerator) : ReportCtx :=
  { c with dg_stack := c.dg_stack ++ [dg] }

/-- The slice of `streamlit.proto.Button_pb2.Button` that
`_create_form_id` fills in. -/
structure Button where
  label : String
  default : Bool
  is_form_submitter : Bool
deriving DecidableEq, Repr

/-- Modelled from the spec: `_get_widget_id` (in
`streamlit.elements.utils`, outside `src/`) is the opaque identity
function `compute_widget_id(kind, descriptor, key)` — deterministic
and injective over distinct `(kind, descriptor-content, key)`.  We
realize it as an injective encoding of its arguments. -/
def _get_widget_id (element_type : String) (proto : Button) (user_key : Option String) : String :=
  element_type ++ "/" ++ proto.label ++ "/" ++ toString proto.default ++ "/"
    ++ toString proto.is_form_submitter ++ "/"
    ++ (match user_key with | none => "None" | some k => "Some " ++ k)

/-- Find the FormData for the given DeltaGenerator (`_current_form`).
If the DeltaGenerator's root container is the sidebar, the ambient
stack is ignored and its own form data is returned.  Otherwise, if
there is no report context or its stack is empty, fall back to the
DeltaGenerator's own form data; else walk the stack from
most-recently-pushed to least-recently-pushed and return the form
data of the first entry that has some. -/
def _current_form (ctx : Option ReportCtx) (this_dg : DeltaGenerator) : Option FormData :=
  if this_dg._root_container = RootContainer.SIDEBAR then
    this_dg._form_data
  else
    match ctx with
    | none => this_dg._form_data
    | some c =>
      if c.dg_stack.length = 0 then
        this_dg._form_data
      else
        match c.dg_stack.reverse.find? (fun dg => dg._form_data.isSome) with
        | some dg => dg._form_data
        | none => this_dg._form_data

/-- Create an ID for a form (`_create_form_id`): the widget ID of the
form's (not yet created) Submit button, faked up from the submit
label and optional key. -/
def _create_form_id (submit_label : String) (key : Option String) : String :=
  let button_proto : Button :=
    { label := submit_label, default := false, is_form_submitter := true }
  _get_widget_id "button" button_proto key

/-- Return the `form_id` for the current form, or the empty string if
we are not inside a form block (`current_form_id`; the empty string
is returned instead of `None` because the value is assigned to
protobuf message fields). -/
def current_form_id (ctx : Option ReportCtx) (dg : DeltaGenerator) : String :=
  match _current_form ctx dg with
  | none => ""
  | some form_data => form_data.form_id

/-- True if the DeltaGenerator is inside a form block (`is_in_form`). -/
def is_in_form (ctx : Option ReportCtx) (dg : DeltaGenerator) : Bool :=
  current_form_id ctx dg != ""

/-- The duplicate-form message for a supplied key
(`_build_duplicate_form_message`, `user_key is not None` branch,
after `textwrap.dedent` and `strip` of the surrounding newlines). -/
def duplicate_form_message_with_key (user_key : String) : String :=
  ("There are multiple identical forms with `key=\x27" ++ user_key ++ "\x27`.")
    ++ "\n\nTo fix this, please make sure that the `key` argument is unique for\neach `st.beta_form` you create."

/-- The duplicate-form message when no key was supplied
(`_build_duplicate_form_message`, `else` branch, after
`textwrap.dedent` and `strip` of the surrounding newlines). -/
def duplicate_form_message_generic : String :=
  "There are multiple identical forms with the same generated key.\n\nWhen a form is created, it\x27s assigned an internal key based on\nits structure. Multiple forms with an identical structure will\nresult in the same internal key, which causes this error.\n\nTo fix this error, please pass a unique `key` argument to\n`st.beta_form`."

/-- Build the duplicate-form error message
(`_build_duplicate_form_message`). -/
def _build_duplicate_form_message (user_key : Option String) : String :=
  match user_key with
  | some k => duplicate_form_message_with_key k
  | none => duplicate_form_message_generic

/-- A block proto as created by `beta_form` (`Block_pb2.Block` with
its `form_id` field stamped). -/
structure Block where
  form_id : String
deriving DecidableEq, Repr

/-- The state `FormMixin.beta_form` can observably mutate: the ambient
report context (duplicate-id registration) and the container tree
(blocks appended by the block-creation primitive, which the spec
describes as a collaborator outside `src/`). -/
structure World where
  ctx : Option ReportCtx
  tree : List Block
deriving DecidableEq, Repr

/-- The message of the nested-form exception raised by `beta_form`. -/
def nested_form_message : String := "Forms cannot be nested in other forms."

/-- `FormMixin.beta_form(submit_label, key)`.  Raising
`StreamlitAPIException` is modelled as returning `Except.error` with
the exception's message, together with the world as left behind by
the call (Python state persists through a raise).  On success the new
block DeltaGenerator — with the `FormData` attached to it — is
returned together with the updated world. -/
def beta_form (w : World) (self_dg : DeltaGenerator) (submit_label : String)
    (key : Option String) : Except String DeltaGenerator × World :=
  if is_in_form w.ctx self_dg then
    (Except.error nested_form_message, w)
  else
    let form_id := _create_form_id submit_label key
    match w.ctx with
    | some c =>
      let added := formIdsAdd c.form_ids_this_run form_id
      let w2 : World := { w with ctx := some { c with form_ids_this_run := added.1 } }
      if !added.2 then
        (Except.error (_build_duplicate_form_message key), w2)
      else
        let block : Block := { form_id := form_id }
        let block_dg : DeltaGenerator :=
          { _root_container := self_dg._root_container,
            _form_data := some { form_id := form_id,
                                 submit_button_label := submit_label,
                                 submit_button_key := key } }
        (Except.ok block_dg, { w2 with tree := w2.tree ++ [block] })
    | none =>
      let block : Block := { form_id := form_id }
      let block_dg : DeltaGenerator :=
        { _root_container := self_dg._root_container,
          _form_data := some { form_id := form_id,
                               submit_button_label := submit_label,
                               submit_button_key := key } }
      (Except.ok block_dg, { w with tree := w.tree ++ [block] })

/-- Iterated `beta_form` calls with identical arguments from the same
invoking DeltaGenerator: `beta_form_iter dg l k n w` is the world
after `n` such calls starting from `w`. -/
def beta_form_iter (dg : DeltaGenerator) (l : String) (k : Option String) :
    Nat → World → World
  | 0, w => w
  | n + 1, w => (beta_form (beta_form_iter dg l k n w) dg l k).2

/-- Form resolution reads nothing of a report context except its
container stack: two contexts with equal `dg_stack` resolve every
DeltaGenerator identically. -/
theorem is_in_form_congr (c c' : ReportCtx) (dg : DeltaGenerator)
    (h : c.dg_stack = c'.dg_stack) :
    is_in_form (some c) dg = is_in_form (some c') dg := by
  simp [is_in_form, current_form_id, _current_form, h]

/-- Claim C1: a widget created while a form's block is lexically
active — its block DeltaGenerator on the ambient stack, with only
form-free containers pushed above it — resolves to that form's
`form_id`: `current_form_id` scans the stack from most-recently-pushed
to least-recently-pushed and returns the `form_id` of the first entry
with directly-attached form data.  (The widget is created in the main
flow; the sidebar is special-cased, see the sidebar theorem.) -/
theorem widget_in_form_block_gets_form_id (c : ReportCtx)
    (dg formDg : DeltaGenerator) (pre post : List DeltaGenerator) (fd : FormData)
    (hroot : dg._root_container ≠ RootContainer.SIDEBAR)
    (hstack : c.dg_stack = pre ++ formDg :: post)
    (hfd : formDg._form_data = some fd)
    (hpost : ∀ d ∈ post, d._form_data = none) :
    current_form_id (some c) dg = fd.form_id := by
  have hne : c.dg_stack.length ≠ 0 := by simp [hstack]
  have hfindpost : post.reverse.find? (fun d => d._form_data.isSome) = none := by
    rw [List.find?_eq_none]
    intro x hx
    simp [hpost x (List.mem_reverse.mp hx)]
  have hfind : c.dg_stack.reverse.find? (fun d => d._form_data.isSome) = some formDg := by
    rw [hstack]
    simp only [List.reverse_append, List.reverse_cons]
    rw [List.find?_append, List.find?_append, hfindpost]
    simp only [Option.none_or]
    rw [List.find?_cons_of_pos _ (by simp [hfd])]
    rfl
  simp [current_form_id, _current_form, hroot, hne, hfind, hfd]

theorem widget_in_form_block_gets_form_id_witness :
    current_form_id
      (some ⟨[⟨RootContainer.MAIN, some ⟨"id1", "Submit", none⟩⟩,
              ⟨RootContainer.MAIN, none⟩], []⟩)
      ⟨RootContainer.MAIN, none⟩ = "id1" :=
  widget_in_form_block_gets_form_id _ _
    ⟨RootContainer.MAIN, some ⟨"id1", "Submit", none⟩⟩
    [] [⟨RootContainer.MAIN, none⟩] ⟨"id1", "Submit", none⟩
    (by decide) rfl rfl (by decide)

/-- Claim C2: calling `beta_form` while the invoking DeltaGenerator is
already inside a form fails with the exact message "Forms cannot be
nested in other forms." and leaves the world — form-id registry and
container tree — untouched, so no new container is created. -/
theorem nested_form_rejected (w : World) (dg : DeltaGenerator)
    (l : String) (k : Option String)
    (h : is_in_form w.ctx dg = true) :
    beta_form w dg l k = (Except.error "Forms cannot be nested in other forms.", w) := by
  simp [beta_form, h, nested_form_message]

theorem nested_form_rejected_witness :
    beta_form ⟨none, []⟩ ⟨RootContainer.MAIN, some ⟨"fid", "f", none⟩⟩ "g" none
      = (Except.error "Forms cannot be nested in other forms.", ⟨none, []⟩) :=
  nested_form_rejected ⟨none, []⟩ ⟨RootContainer.MAIN, some ⟨"fid", "f", none⟩⟩
    "g" none (by decide)

/-- Claim C5: for a sidebar DeltaGenerator, `current_form_id` ignores
the ambient container stack entirely and returns only the sidebar's
own directly-attached form data's id — the empty string when it has
none — whatever report context (and active main-flow form) is
present. -/
theorem sidebar_ignores_ambient_stack (ctx : Option ReportCtx) (dg : DeltaGenerator)
    (h : dg._root_container = RootContainer.SIDEBAR) :
    current_form_id ctx dg =
      (match dg._form_data with
       | none => ""
       | some fd => fd.form_id) := by
  simp [current_form_id, _current_form, h]

theorem sidebar_ignores_ambient_stack_witness :
    current_form_id
      (some ⟨[⟨RootContainer.MAIN, some ⟨"fid", "f", none⟩⟩], ["fid"]⟩)
      ⟨RootContainer.SIDEBAR, none⟩ = "" :=
  sidebar_ignores_ambient_stack
    (some ⟨[⟨RootContainer.MAIN, some ⟨"fid", "f", none⟩⟩], ["fid"]⟩)
    ⟨RootContainer.SIDEBAR, none⟩ rfl

/-- Claim C9: `current_form_id` always yields a string — the empty
string, never an absent value, when not in a form: it is either `""`
or the `form_id` of the resolved form data — and `is_in_form` holds
exactly when that string is nonempty. -/
theorem is_in_form_iff_nonempty_form_id (ctx : Option ReportCtx) (dg : DeltaGenerator) :
    (is_in_form ctx dg = true ↔ current_form_id ctx dg ≠ "") ∧
    (current_form_id ctx dg = "" ∨
      ∃ fd, _current_form ctx dg = some fd ∧ current_form_id ctx dg = fd.form_id) := by
  constructor
  · simp [is_in_form]
  · cases h : _current_form ctx dg with
    | none => exact Or.inl (by simp [current_form_id, h])
    | some fd => exact Or.inr ⟨fd, rfl, by simp [current_form_id, h]⟩

/-- Claim C3 (amended): a `beta_form` call whose computed form id is
already registered in the run context fails with the duplicate-form
message and changes nothing; when a key was supplied the message
includes the literal key as "There are multiple identical forms with
\`key='<key>'\`." — the key fragment is wrapped in backticks — and
without a key it is the generic explanation instructing the caller to
supply a key. -/
theorem duplicate_form_rejected (w : World) (c : ReportCtx) (dg : DeltaGenerator)
    (l : String) (k : Option String)
    (hctx : w.ctx = some c)
    (hform : is_in_form w.ctx dg = false)
    (hdup : _create_form_id l k ∈ c.form_ids_this_run) :
    (beta_form w dg l k = (Except.error (_build_duplicate_form_message k), w)) ∧
    (∀ s, k = some s →
      ("There are multiple identical forms with `key=\x27" ++ s ++ "\x27`.").toList
        <:+: (_build_duplicate_form_message k).toList) ∧
    (k = none → _build_duplicate_form_message k = duplicate_form_message_generic) := by
  refine ⟨?_, ?_, ?_⟩
  · obtain ⟨ctx0, tree0⟩ := w
    simp only at hctx
    subst hctx
    obtain ⟨stk, seen⟩ := c
    simp only [beta_form, hform, formIdsAdd]
    simp only at hdup
    simp [hdup]
  · intro s hs
    subst hs
    refine List.IsPrefix.isInfix ⟨"\n\nTo fix this, please make sure that the `key` argument is unique for\neach `st.beta_form` you create.".toList, ?_⟩
    simp [_build_duplicate_form_message, duplicate_form_message_with_key, String.toList]
  · intro hk
    subst hk
    rfl

theorem duplicate_form_rejected_witness :
    (beta_form ⟨some ⟨[], [_create_form_id "Submit" (some "foo")]⟩, []⟩
        ⟨RootContainer.MAIN, none⟩ "Submit" (some "foo")
      = (Except.error (_build_duplicate_form_message (some "foo")),
         ⟨some ⟨[], [_create_form_id "Submit" (some "foo")]⟩, []⟩)) ∧
    ("There are multiple identical forms with `key=\x27foo\x27`.").toList
      <:+: (_build_duplicate_form_message (some "foo")).toList :=
  ⟨(duplicate_form_rejected _ _ _ "Submit" (some "foo") rfl (by decide) (by decide)).1,
   (duplicate_form_rejected ⟨some ⟨[], [_create_form_id "Submit" (some "foo")]⟩, []⟩
      ⟨[], [_create_form_id "Submit" (some "foo")]⟩ ⟨RootContainer.MAIN, none⟩
      "Submit" (some "foo") rfl (by decide) (by decide)).2.1 "foo" rfl⟩

set_option maxRecDepth 20000 in
/-- Claim C3, the claim as literally stated is false: when the
duplicate key "foo" is reported, the message does not contain the
substring "There are multiple identical forms with key='foo'." — the
actual message wraps the key fragment in backticks. -/
theorem duplicate_message_lacks_unbackticked_key :
    ((beta_form ⟨some ⟨[], [_create_form_id "Submit" (some "foo")]⟩, []⟩
        ⟨RootContainer.MAIN, none⟩ "Submit" (some "foo")).1
      = Except.error (_build_duplicate_form_message (some "foo"))) ∧
    ¬ ("There are multiple identical forms with key=\x27foo\x27.").toList
        <:+: (_build_duplicate_form_message (some "foo")).toList := by
  refine ⟨rfl, ?_⟩
  decide

/-- Claim C4: evaluation of the embedded code at the scenario the
claim (and the repository's own test `test_parent_created_outside_form`)
describes.  A form block created by `beta_form` and pushed onto the
ambient stack by its `with`-entry makes a handle captured outside the
form — root `MAIN`, no attached form data — resolve to the form's
(nonempty) id, not to the empty string the claim demands. -/
theorem outside_handle_inherits_ambient_form :
    ((beta_form ⟨some ⟨[], []⟩, []⟩ ⟨RootContainer.MAIN, none⟩ "f" none).1
      = Except.ok ⟨RootContainer.MAIN, some ⟨_create_form_id "f" none, "f", none⟩⟩) ∧
    (current_form_id
        (some (dgStackPush ⟨[], [_create_form_id "f" none]⟩
          ⟨RootContainer.MAIN, some ⟨_create_form_id "f" none, "f", none⟩⟩))
        ⟨RootContainer.MAIN, none⟩
      = _create_form_id "f" none) ∧
    _create_form_id "f" none ≠ "" := by
  refine ⟨rfl, rfl, ?_⟩
  decide

/-- Claim C6: with a fresh run context and an invoking DeltaGenerator
not inside a form, two `beta_form` calls with the same submit label
but distinct keys — the identity function mapping them to distinct
ids, its injectivity instance — both succeed, and the two created
forms carry those distinct form ids. -/
theorem distinct_keys_give_distinct_forms (w : World) (c : ReportCtx)
    (dg : DeltaGenerator) (l k1 k2 : String)
    (hctx : w.ctx = some c)
    (hfresh : c.form_ids_this_run = [])
    (hform : is_in_form w.ctx dg = false)
    (_hkeys : k1 ≠ k2)
    (hids : _create_form_id l (some k1) ≠ _create_form_id l (some k2)) :
    ((beta_form w dg l (some k1)).1
      = Except.ok ⟨dg._root_container, some ⟨_create_form_id l (some k1), l, some k1⟩⟩) ∧
    ((beta_form (beta_form w dg l (some k1)).2 dg l (some k2)).1
      = Except.ok ⟨dg._root_container, some ⟨_create_form_id l (some k2), l, some k2⟩⟩) ∧
    _create_form_id l (some k1) ≠ _create_form_id l (some k2) := by
  obtain ⟨ctx0, tree0⟩ := w
  simp only at hctx
  subst hctx
  obtain ⟨stk, seen⟩ := c
  simp only at hfresh
  subst hfresh
  have hform2 : is_in_form (some ⟨stk, [_create_form_id l (some k1)]⟩) dg = false := by
    rw [is_in_form_congr ⟨stk, [_create_form_id l (some k1)]⟩ ⟨stk, []⟩ dg rfl]
    exact hform
  refine ⟨?_, ?_, hids⟩
  · simp [beta_form, hform, formIdsAdd]
  · simp only [beta_form, hform, formIdsAdd]
    simp [hform2, formIdsAdd, Ne.symm hids]

theorem distinct_keys_give_distinct_forms_witness :
    ((beta_form ⟨some ⟨[], []⟩, []⟩ ⟨RootContainer.MAIN, none⟩ "Submit" (some "foo")).1
      = Except.ok ⟨RootContainer.MAIN,
          some ⟨_create_form_id "Submit" (some "foo"), "Submit", some "foo"⟩⟩) ∧
    ((beta_form (beta_form ⟨some ⟨[], []⟩, []⟩ ⟨RootContainer.MAIN, none⟩
        "Submit" (some "foo")).2 ⟨RootContainer.MAIN, none⟩ "Submit" (some "bar")).1
      = Except.ok ⟨RootContainer.MAIN,
          some ⟨_create_form_id "Submit" (some "bar"), "Submit", some "bar"⟩⟩) ∧
    _create_form_id "Submit" (some "foo") ≠ _create_form_id "Submit" (some "bar") :=
  distinct_keys_give_distinct_forms ⟨some ⟨[], []⟩, []⟩ ⟨[], []⟩
    ⟨RootContainer.MAIN, none⟩ "Submit" "foo" "bar"
    rfl rfl (by decide) (by decide) (by decide)

/-- Claim C7: the form id produced by `beta_form` is exactly the
widget id of the synthetic submit-button descriptor — kind "button",
label the submit label, default false, the form-submitter flag set,
and the optional key — and every successful `beta_form` call, from
any world and any invoking DeltaGenerator, attaches form data with
that same id: the identity ignores position. -/
theorem form_id_is_submit_button_id (l : String) (k : Option String) :
    (_create_form_id l k
      = _get_widget_id "button" ⟨l, false, true⟩ k) ∧
    ∀ w dg,
      match (beta_form w dg l k).1 with
      | Except.ok d =>
          d._form_data = some ⟨_create_form_id l k, l, k⟩
      | Except.error _ => True := by
  refine ⟨rfl, ?_⟩
  intro w dg
  obtain ⟨ctx0, tree0⟩ := w
  by_cases h : is_in_form ctx0 dg = true
  · simp [beta_form, h]
  · cases ctx0 with
    | none => simp [beta_form, h]
    | some c =>
      simp only [beta_form]
      rw [if_neg (by simpa using h)]
      by_cases hmem : _create_form_id l k ∈ c.form_ids_this_run
      · simp [formIdsAdd, hmem]
      · simp [formIdsAdd, hmem]

/-- Claim C8: a failed `beta_form` call — nested-form or
duplicate-form — leaves the world exactly as it was: the run
context (its container stack and its set of seen form ids) and the
container tree are unchanged, all validation happening strictly
before any container is created. -/
theorem failed_beta_form_leaves_state_unchanged (w : World) (dg : DeltaGenerator)
    (l : String) (k : Option String) (msg : String)
    (h : (beta_form w dg l k).1 = Except.error msg) :
    (beta_form w dg l k).2 = w := by
  obtain ⟨ctx0, tree0⟩ := w
  by_cases hin : is_in_form ctx0 dg = true
  · simp [beta_form, hin]
  · cases ctx0 with
    | none => simp [beta_form, hin] at h
    | some c =>
      obtain ⟨stk, seen⟩ := c
      by_cases hmem : _create_form_id l k ∈ seen
      · simp [beta_form, hin, formIdsAdd, hmem]
      · simp [beta_form, hin, formIdsAdd, hmem] at h

theorem failed_beta_form_leaves_state_unchanged_witness :
    (beta_form ⟨none, []⟩ ⟨RootContainer.MAIN, some ⟨"fid", "f", none⟩⟩ "g" none).2
      = ⟨none, []⟩ :=
  failed_beta_form_leaves_state_unchanged ⟨none, []⟩
    ⟨RootContainer.MAIN, some ⟨"fid", "f", none⟩⟩ "g" none
    "Forms cannot be nested in other forms." rfl

/-- A single `beta_form` call in a world with no report context
succeeds with the new form block and leaves the context absent. -/
theorem beta_form_no_ctx (w : World) (dg : DeltaGenerator)
    (l : String) (k : Option String)
    (hctx : w.ctx = none) (hform : is_in_form none dg = false) :
    ((beta_form w dg l k).1
      = Except.ok ⟨dg._root_container, some ⟨_create_form_id l k, l, k⟩⟩) ∧
    (beta_form w dg l k).2.ctx = none := by
  obtain ⟨ctx0, tree0⟩ := w
  simp only at hctx
  subst hctx
  simp [beta_form, hform]

/-- Claim C10: with no active run context, `beta_form` performs no
duplicate-id registration or check: starting from a world whose
context is none, with the invoking DeltaGenerator not in a form,
every one of an arbitrary number of repeated calls with identical
arguments succeeds — the context stays none, and the next call still
returns the newly created form block — so a duplicate-form error is
never raised outside a run. -/
theorem no_run_ctx_never_duplicate (w : World) (dg : DeltaGenerator)
    (l : String) (k : Option String)
    (hctx : w.ctx = none)
    (hform : is_in_form w.ctx dg = false) :
    ∀ n, (beta_form_iter dg l k n w).ctx = none ∧
      (beta_form (beta_form_iter dg l k n w) dg l k).1
        = Except.ok ⟨dg._root_container, some ⟨_create_form_id l k, l, k⟩⟩ := by
  rw [hctx] at hform
  intro n
  induction n with
  | zero => exact ⟨hctx, (beta_form_no_ctx w dg l k hctx hform).1⟩
  | succ m ih =>
    have h2 : (beta_form_iter dg l k (m + 1) w).ctx = none := by
      simp only [beta_form_iter]
      exact (beta_form_no_ctx _ dg l k ih.1 hform).2
    exact ⟨h2, (beta_form_no_ctx _ dg l k h2 hform).1⟩

theorem no_run_ctx_never_duplicate_witness :
    ((beta_form_iter ⟨RootContainer.MAIN, none⟩ "Submit" none 2 ⟨none, []⟩).ctx = none) ∧
    (beta_form (beta_form_iter ⟨RootContainer.MAIN, none⟩ "Submit" none 2 ⟨none, []⟩)
        ⟨RootContainer.MAIN, none⟩ "Submit" none).1
      = Except.ok ⟨RootContainer.MAIN,
          some ⟨_create_form_id "Submit" none, "Submit", none⟩⟩ :=
  no_run_ctx_never_duplicate ⟨none, []⟩ ⟨RootContainer.MAIN, none⟩
    "Submit" none rfl (by decide) 2

end StreamlitForm
